import Mathlib

/-!
Verification of the movies-app-api repository (Django REST Framework CRUD
API for movies, tags and users) against its natural-language specification.

The embedding below translates the repository's declarative view and
serializer configuration (`app/movie/views.py`, `app/movie/serializers.py`)
together with the generic-view semantics those declarations select, into
executable Lean definitions over an explicit database state.  The data model
(`core.models.Tag`, `core.models.Movie`) is reconstructed from the field
lists in the serializers and the repository's own tests.
-/

namespace MoviesApp

/-- `core.models.Tag`: a name owned by exactly one user.
    Fields taken from `TagSerializer` (`id`, `name`) plus the `user`
    foreign key used by `BaseMovieAttrViewSet`. -/
structure Tag where
  id : Nat
  user : Nat
  name : String
deriving DecidableEq, Repr

/-- `core.models.Movie`: scalar fields as listed in `MovieSerializer`
    (`id`, `title`, `tags`, `time_minutes`, `ticket_price_USD`, `link`),
    the `image` file reference used by `MovieImageSerializer`, and the
    owning `user`.  `tags` is the many-to-many association, held as the
    list of associated tag ids. -/
structure Movie where
  id : Nat
  user : Nat
  title : String
  time_minutes : Nat
  ticket_price_USD : ℚ
  link : String
  image : Option String
  tags : List Nat
deriving DecidableEq, Repr

/-- The relational store: all Tag rows, all Movie rows, and the next
    auto-increment primary key for each table. -/
structure DB where
  tags : List Tag
  movies : List Movie
  nextTagId : Nat
  nextMovieId : Nat
deriving Repr

/-- Database well-formedness: primary keys are unique and below the
    auto-increment counters. -/
def DB.wf (db : DB) : Bool :=
  db.movies.all (fun m => m.id < db.nextMovieId) &&
  db.tags.all (fun t => t.id < db.nextTagId) &&
  decide ((db.movies.map (fun m => m.id)).Nodup) &&
  decide ((db.tags.map (fun t => t.id)).Nodup)

/-- The controller operations ("actions") a viewset can serve.  `update`
    is PUT (full), `partialUpdate` is PATCH, `uploadImage` is the extra
    `@action` on `MovieViewSet`. -/
inductive Action where
  | list
  | create
  | retrieve
  | update
  | partialUpdate
  | destroy
  | uploadImage
deriving DecidableEq, Repr

/-- Which actions `TagViewSet` serves.  `BaseMovieAttrViewSet` is built
    from `GenericViewSet` plus only `ListModelMixin` and
    `CreateModelMixin` (views.py lines 13-15), so only `list` and
    `create` exist. -/
def tagSupports : Action → Bool
  | .list => true
  | .create => true
  | _ => false

/-- Which actions `MovieViewSet` serves: it extends `ModelViewSet`
    (all CRUD mixins) and adds the `upload_image` action. -/
def movieSupports : Action → Bool
  | _ => true

/-- `BaseMovieAttrViewSet.get_queryset`:
    `self.queryset.filter(user=self.request.user).order_by('-name')` —
    the caller's rows, name descending. -/
def tagQueryset (caller : Nat) (db : DB) : List Tag :=
  (db.tags.filter (fun t => t.user = caller)).insertionSort
    (fun a b => b.name ≤ a.name)

/-- `BaseMovieAttrViewSet.perform_create`:
    `serializer.save(user=self.request.user)` — inserts a new Tag row
    owned by the caller. -/
def performCreateTag (caller : Nat) (name : String) (db : DB) : Tag × DB :=
  let t : Tag := { id := db.nextTagId, user := caller, name := name }
  (t, { db with tags := db.tags ++ [t], nextTagId := db.nextTagId + 1 })

/-- `MovieViewSet.get_queryset`:
    `self.queryset.filter(user=self.request.user)` — the caller's
    movies, default ordering. -/
def movieQueryset (caller : Nat) (db : DB) : List Movie :=
  db.movies.filter (fun m => m.user = caller)

/-- `GenericAPIView.get_object` as used by retrieve/update/destroy and
    `upload_image`: resolve the pk inside the caller-filtered queryset;
    `none` models the 404 raised when the row is absent there. -/
def getObject (caller : Nat) (pk : Nat) (db : DB) : Option Movie :=
  (movieQueryset caller db).find? (fun m => m.id = pk)

/-- The three serializer classes of `movie/serializers.py` that can serve
    a Movie. -/
inductive SerializerClass where
  | movie
  | movieDetail
  | movieImage
deriving DecidableEq, Repr

/-- `MovieViewSet.get_serializer_class` (views.py lines 47-54). -/
def get_serializer_class (action : Action) : SerializerClass :=
  if action = Action.retrieve then SerializerClass.movieDetail
  else if action = Action.uploadImage then SerializerClass.movieImage
  else SerializerClass.movie

/-- Wire form produced by `TagSerializer`: `fields = ('id', 'name')`. -/
structure TagRepr where
  id : Nat
  name : String
deriving DecidableEq, Repr

/-- Wire form produced by `MovieSerializer` ("list" form): tags as bare
    primary keys. -/
structure MovieListRepr where
  id : Nat
  title : String
  tags : List Nat
  time_minutes : Nat
  ticket_price_USD : ℚ
  link : String
deriving DecidableEq, Repr

/-- Wire form produced by `MovieDetailSerializer` ("detail" form): each
    tag expanded through `TagSerializer`. -/
structure MovieDetailRepr where
  id : Nat
  title : String
  tags : List TagRepr
  time_minutes : Nat
  ticket_price_USD : ℚ
  link : String
deriving DecidableEq, Repr

/-- Wire form produced by `MovieImageSerializer`:
    `fields = ('id', 'image')`. -/
structure MovieImageRepr where
  id : Nat
  image : Option String
deriving DecidableEq, Repr

def serializeTag (t : Tag) : TagRepr :=
  { id := t.id, name := t.name }

def serializeMovie (m : Movie) : MovieListRepr :=
  { id := m.id, title := m.title, tags := m.tags,
    time_minutes := m.time_minutes,
    ticket_price_USD := m.ticket_price_USD, link := m.link }

/-- Expansion of one associated tag id into the nested `TagSerializer`
    output, by looking the row up in the Tag table. -/
def expandTag (db : DB) (tid : Nat) : Option TagRepr :=
  (db.tags.find? (fun t => t.id = tid)).map serializeTag

def serializeMovieDetail (db : DB) (m : Movie) : MovieDetailRepr :=
  { id := m.id, title := m.title,
    tags := m.tags.filterMap (expandTag db),
    time_minutes := m.time_minutes,
    ticket_price_USD := m.ticket_price_USD, link := m.link }

def serializeMovieImage (m : Movie) : MovieImageRepr :=
  { id := m.id, image := m.image }

/-- Output of serializing one Movie, tagged with which form was used. -/
inductive MovieRepr where
  | list (r : MovieListRepr)
  | detail (r : MovieDetailRepr)
  | image (r : MovieImageRepr)
deriving DecidableEq, Repr

/-- Serialize a Movie with the serializer class the dispatch selected. -/
def serializeWith (c : SerializerClass) (db : DB) (m : Movie) : MovieRepr :=
  match c with
  | SerializerClass.movie => MovieRepr.list (serializeMovie m)
  | SerializerClass.movieDetail => MovieRepr.detail (serializeMovieDetail db m)
  | SerializerClass.movieImage => MovieRepr.image (serializeMovieImage m)

/-- An incoming Movie write payload: each serializer field that may be
    present in the request body.  `none` means the field is absent. -/
structure MoviePayload where
  title : Option String
  time_minutes : Option Nat
  ticket_price_USD : Option ℚ
  link : Option String
  tags : Option (List Nat)
deriving DecidableEq, Repr

/-- Validation of the `tags` field by `MovieSerializer.tags`, a
    `PrimaryKeyRelatedField` whose queryset is `Tag.objects.all()`:
    each id must name an existing Tag row — with no owner check. -/
def validTagIds (db : DB) (ids : List Nat) : Bool :=
  ids.all (fun i => db.tags.any (fun t => t.id = i))

/-- Result of non-partial `MovieSerializer` validation.  `link` is an
    optional model field, so it only appears when supplied; `tags`
    always appears — a multipart body without the key deserializes as
    the empty list (the behavior `test_full_update_movie` pins). -/
structure ValidatedMovie where
  title : String
  time_minutes : Nat
  ticket_price_USD : ℚ
  link : Option String
  tags : List Nat
deriving DecidableEq, Repr

/-- Non-partial (create / PUT) validation: `title`, `time_minutes`
    (positive) and `ticket_price_USD` (positive) are required; `link`
    optional; `tags` ids must exist, absent key meaning the empty
    list. -/
def runValidation (db : DB) (p : MoviePayload) : Option ValidatedMovie :=
  match p.title, p.time_minutes, p.ticket_price_USD with
  | some title, some tm, some price =>
    if 0 < tm ∧ 0 < price ∧ validTagIds db (p.tags.getD []) = true then
      some { title := title, time_minutes := tm, ticket_price_USD := price,
             link := p.link, tags := p.tags.getD [] }
    else none
  | _, _, _ => none

/-- Result of partial (PATCH) validation: every supplied field is
    validated as above, absent fields are skipped (and, for `tags`,
    left untouched). -/
def runValidationPartial (db : DB) (p : MoviePayload) : Option MoviePayload :=
  if p.time_minutes.all (fun tm => decide (0 < tm)) &&
     p.ticket_price_USD.all (fun pr => decide (0 < pr)) &&
     p.tags.all (fun ts => validTagIds db ts) then
    some p
  else none

/-- `serializer.save()` on create (`MovieViewSet.perform_create` passes
    `user=self.request.user`): a fresh row owned by the caller, image
    initially unset. -/
def newMovieRow (caller : Nat) (v : ValidatedMovie) (db : DB) : Movie :=
  { id := db.nextMovieId, user := caller, title := v.title,
    time_minutes := v.time_minutes,
    ticket_price_USD := v.ticket_price_USD,
    link := v.link.getD "", image := none, tags := v.tags }

inductive CreateResult where
  | created (r : MovieListRepr)
  | badRequest
deriving DecidableEq, Repr

/-- POST /movies: validate, then `perform_create`. -/
def createMovie (caller : Nat) (p : MoviePayload) (db : DB) :
    CreateResult × DB :=
  match runValidation db p with
  | none => (CreateResult.badRequest, db)
  | some v =>
    let m := newMovieRow caller v db
    (CreateResult.created (serializeMovie m),
     { db with movies := db.movies ++ [m],
               nextMovieId := db.nextMovieId + 1 })

/-- Replace the row with `m'.id` by `m'` (the ORM `save()` of an
    existing instance). -/
def updateMovieInDB (newRow : Movie) (db : DB) : DB :=
  { db with movies :=
      db.movies.map (fun m => if m.id = newRow.id then newRow else m) }

/-- `serializer.update` for a full (PUT) update: every writable field is
    set from the validated data; `link` only when supplied; `tags`
    replaced wholesale. -/
def applyFullUpdate (v : ValidatedMovie) (m : Movie) : Movie :=
  { m with title := v.title, time_minutes := v.time_minutes,
           ticket_price_USD := v.ticket_price_USD,
           link := v.link.getD m.link, tags := v.tags }

/-- `serializer.update` for a partial (PATCH) update: only supplied
    fields change. -/
def applyPartialUpdate (v : MoviePayload) (m : Movie) : Movie :=
  { m with title := v.title.getD m.title,
           time_minutes := v.time_minutes.getD m.time_minutes,
           ticket_price_USD := v.ticket_price_USD.getD m.ticket_price_USD,
           link := v.link.getD m.link,
           tags := v.tags.getD m.tags }

inductive UpdateResult where
  | ok (r : MovieListRepr)
  | badRequest
  | notFound
deriving DecidableEq, Repr

/-- PUT /movies/id: resolve through the caller-filtered queryset, then
    full validation, then save. -/
def putMovie (caller : Nat) (pk : Nat) (p : MoviePayload) (db : DB) :
    UpdateResult × DB :=
  match getObject caller pk db with
  | none => (UpdateResult.notFound, db)
  | some m =>
    match runValidation db p with
    | none => (UpdateResult.badRequest, db)
    | some v =>
      let m' := applyFullUpdate v m
      (UpdateResult.ok (serializeMovie m'), updateMovieInDB m' db)

/-- PATCH /movies/id: resolve, partial validation, save. -/
def patchMovie (caller : Nat) (pk : Nat) (p : MoviePayload) (db : DB) :
    UpdateResult × DB :=
  match getObject caller pk db with
  | none => (UpdateResult.notFound, db)
  | some m =>
    match runValidationPartial db p with
    | none => (UpdateResult.badRequest, db)
    | some v =>
      let m' := applyPartialUpdate v m
      (UpdateResult.ok (serializeMovie m'), updateMovieInDB m' db)

/-- DELETE /movies/id. -/
def destroyMovie (caller : Nat) (pk : Nat) (db : DB) :
    Bool × DB :=
  match getObject caller pk db with
  | none => (false, db)
  | some m =>
    (true, { db with movies := db.movies.filter (fun x => ¬ x.id = m.id) })

/-- The body of the multipart upload-image request: an actual image
    file (carrying the reference under which it will be stored), some
    non-image bytes, or no `image` field at all. -/
inductive UploadData where
  | image (ref : String)
  | notImage (raw : String)
  | missing
deriving DecidableEq, Repr

/-- `MovieImageSerializer.is_valid()`: its single writable field is an
    `ImageField`, which accepts only a payload that parses as an image;
    a missing or corrupt payload fails field validation. -/
def validateImage : UploadData → Option String
  | UploadData.image ref => some ref
  | _ => none

inductive UploadResult where
  | ok (r : MovieImageRepr)
  | badRequest
  | notFound
deriving DecidableEq, Repr

/-- `MovieViewSet.upload_image` (views.py lines 60-79): `get_object()`
    first (404 through the caller-filtered queryset), then validate;
    on success save and answer 200 with the serializer data, else
    400 with the errors and no write. -/
def upload_image (caller : Nat) (pk : Nat) (payload : UploadData)
    (db : DB) : UploadResult × DB :=
  match getObject caller pk db with
  | none => (UploadResult.notFound, db)
  | some m =>
    match validateImage payload with
    | some ref =>
      let m' := { m with image := some ref }
      (UploadResult.ok (serializeMovieImage m'), updateMovieInDB m' db)
    | none => (UploadResult.badRequest, db)

/-- An HTTP request against the Tag endpoints (`tagSupports` lists the
    actions that exist). -/
inductive TagRequest where
  | list
  | create (name : String)
deriving DecidableEq, Repr

/-- An HTTP request against the Movie endpoints. -/
inductive MovieRequest where
  | list
  | retrieve (pk : Nat)
  | create (p : MoviePayload)
  | put (pk : Nat) (p : MoviePayload)
  | patch (pk : Nat) (p : MoviePayload)
  | destroy (pk : Nat)
  | uploadImage (pk : Nat) (d : UploadData)
deriving DecidableEq, Repr

inductive HttpStatus where
  | s200
  | s201
  | s204
  | s400
  | s401
  | s404
deriving DecidableEq, Repr

/-- Token authentication + `IsAuthenticated` on `BaseMovieAttrViewSet`:
    a request whose bearer token resolves to no user (`auth = none`) is
    rejected with 401 before any handler runs. -/
def handleTag (auth : Option Nat) (req : TagRequest) (db : DB) :
    HttpStatus × DB :=
  match auth with
  | none => (HttpStatus.s401, db)
  | some caller =>
    match req with
    | TagRequest.list => (HttpStatus.s200, db)
    | TagRequest.create name =>
      (HttpStatus.s201, (performCreateTag caller name db).2)

/-- Token authentication + `IsAuthenticated` on `MovieViewSet`, then
    dispatch to the generic handlers. -/
def handleMovie (auth : Option Nat) (req : MovieRequest) (db : DB) :
    HttpStatus × DB :=
  match auth with
  | none => (HttpStatus.s401, db)
  | some caller =>
    match req with
    | MovieRequest.list => (HttpStatus.s200, db)
    | MovieRequest.retrieve pk =>
      match getObject caller pk db with
      | some _ => (HttpStatus.s200, db)
      | none => (HttpStatus.s404, db)
    | MovieRequest.create p =>
      match createMovie caller p db with
      | (CreateResult.created _, db') => (HttpStatus.s201, db')
      | (CreateResult.badRequest, db') => (HttpStatus.s400, db')
    | MovieRequest.put pk p =>
      match putMovie caller pk p db with
      | (UpdateResult.ok _, db') => (HttpStatus.s200, db')
      | (UpdateResult.badRequest, db') => (HttpStatus.s400, db')
      | (UpdateResult.notFound, db') => (HttpStatus.s404, db')
    | MovieRequest.patch pk p =>
      match patchMovie caller pk p db with
      | (UpdateResult.ok _, db') => (HttpStatus.s200, db')
      | (UpdateResult.badRequest, db') => (HttpStatus.s400, db')
      | (UpdateResult.notFound, db') => (HttpStatus.s404, db')
    | MovieRequest.destroy pk =>
      match destroyMovie caller pk db with
      | (true, db') => (HttpStatus.s204, db')
      | (false, db') => (HttpStatus.s404, db')
    | MovieRequest.uploadImage pk d =>
      match upload_image caller pk d db with
      | (UploadResult.ok _, db') => (HttpStatus.s200, db')
      | (UploadResult.badRequest, db') => (HttpStatus.s400, db')
      | (UploadResult.notFound, db') => (HttpStatus.s404, db')

/-! ### Helper lemmas -/

instance : IsTotal Tag (fun a b => b.name ≤ a.name) :=
  ⟨fun a b => le_total b.name a.name⟩

instance : IsTrans Tag (fun a b => b.name ≤ a.name) :=
  ⟨fun _ _ _ hab hbc => le_trans hbc hab⟩

lemma mem_tagQueryset {t : Tag} {caller : Nat} {db : DB} :
    t ∈ tagQueryset caller db ↔ t ∈ db.tags ∧ t.user = caller := by
  unfold tagQueryset
  rw [(List.perm_insertionSort _ _).mem_iff]
  simp

lemma tagQueryset_sorted (caller : Nat) (db : DB) :
    (tagQueryset caller db).Sorted (fun a b => b.name ≤ a.name) :=
  List.sorted_insertionSort _ _

lemma mem_movieQueryset {m : Movie} {caller : Nat} {db : DB} :
    m ∈ movieQueryset caller db ↔ m ∈ db.movies ∧ m.user = caller := by
  unfold movieQueryset
  simp

/-- The combined row predicate that `getObject` effectively searches
    with: owned by the caller and carrying the requested pk. -/
def ownedWithPk (caller pk : Nat) (m : Movie) : Bool :=
  decide (m.user = caller ∧ m.id = pk)

lemma getObject_eq_find (caller pk : Nat) (db : DB) :
    getObject caller pk db = db.movies.find? (ownedWithPk caller pk) := by
  unfold getObject movieQueryset
  rw [List.find?_filter]
  congr 1
  funext m
  simp [ownedWithPk]

lemma getObject_user_id_mem {caller pk : Nat} {db : DB} {m : Movie}
    (h : getObject caller pk db = some m) :
    m ∈ db.movies ∧ m.user = caller ∧ m.id = pk := by
  rw [getObject_eq_find] at h
  have hmem := List.mem_of_find?_eq_some h
  have hp := List.find?_some h
  simp only [ownedWithPk, decide_eq_true_eq] at hp
  exact ⟨hmem, hp.1, hp.2⟩

lemma find_append_fresh (caller : Nat) (l : List Movie) (m : Movie)
    (hfresh : ∀ x ∈ l, x.id ≠ m.id) (huser : m.user = caller) :
    (l ++ [m]).find? (ownedWithPk caller m.id) = some m := by
  rw [List.find?_append]
  have h1 : l.find? (ownedWithPk caller m.id) = none := by
    rw [List.find?_eq_none]
    intro x hx
    simp only [ownedWithPk, decide_eq_true_eq, not_and]
    intro _
    exact hfresh x hx
  rw [h1]
  simp [ownedWithPk, huser]

lemma find_update_of_nodup (caller pk : Nat) (m newRow : Movie)
    (l : List Movie) (hnd : (l.map (fun x => x.id)).Nodup)
    (h : l.find? (ownedWithPk caller pk) = some m)
    (hid : newRow.id = m.id) (huser : newRow.user = caller) :
    (l.map (fun x => if x.id = newRow.id then newRow else x)).find?
      (ownedWithPk caller pk) = some newRow := by
  induction l with
  | nil => simp at h
  | cons a rest ih =>
    have hpk : m.id = pk := by
      have hp := List.find?_some h
      simp only [ownedWithPk, decide_eq_true_eq] at hp
      exact hp.2
    by_cases hpa : ownedWithPk caller pk a = true
    · rw [List.find?_cons_of_pos _ hpa] at h
      have ham : a = m := by injection h
      have hhead : (if a.id = newRow.id then newRow else a) = newRow := by
        rw [if_pos (by rw [ham, hid])]
      rw [List.map_cons, hhead, List.find?_cons_of_pos]
      simp only [ownedWithPk, decide_eq_true_eq]
      exact ⟨huser, by rw [hid, hpk]⟩
    · rw [List.find?_cons_of_neg _ hpa] at h
      have hmem : m ∈ rest := List.mem_of_find?_eq_some h
      have hane : a.id ≠ m.id := by
        intro hcontra
        have : a.id ∈ rest.map (fun x => x.id) :=
          hcontra ▸ List.mem_map.mpr ⟨m, hmem, rfl⟩
        exact (List.nodup_cons.mp (by simpa using hnd)).1 this
      have hhead : (if a.id = newRow.id then newRow else a) = a := by
        rw [if_neg (by rw [hid]; exact hane)]
      have hpa' : ownedWithPk caller pk (if a.id = newRow.id then newRow else a) ≠ true := by
        rw [hhead]; exact hpa
      rw [List.map_cons, List.find?_cons_of_neg _ hpa']
      exact ih (List.nodup_cons.mp (by simpa using hnd)).2 h

/-- Retrieval after an ORM `save()` of an updated row: with unique pks,
    looking the pk up again yields exactly the updated row. -/
lemma getObject_updateMovieInDB {caller pk : Nat} {db : DB} {m : Movie}
    (newRow : Movie)
    (hnd : (db.movies.map (fun x => x.id)).Nodup)
    (h : getObject caller pk db = some m)
    (hid : newRow.id = m.id) (huser : newRow.user = caller) :
    getObject caller pk (updateMovieInDB newRow db) = some newRow := by
  rw [getObject_eq_find] at h ⊢
  exact find_update_of_nodup caller pk m newRow db.movies hnd h hid huser

/-- Unpacking `DB.wf`. -/
lemma wf_spec {db : DB} (h : db.wf = true) :
    (∀ m ∈ db.movies, m.id < db.nextMovieId) ∧
    (∀ t ∈ db.tags, t.id < db.nextTagId) ∧
    (db.movies.map (fun m => m.id)).Nodup ∧
    (db.tags.map (fun t => t.id)).Nodup := by
  unfold DB.wf at h
  simp only [Bool.and_eq_true, List.all_eq_true, decide_eq_true_eq] at h
  exact ⟨h.1.1.1, h.1.1.2, h.1.2, h.2⟩

/-! ### Concrete fixtures used by witnesses -/

/-- A tag owned by user 0. -/
def tagA : Tag := { id := 1, user := 0, name := "Action" }

/-- A movie owned by user 0. -/
def movieA : Movie :=
  { id := 1, user := 0, title := "Alpha", time_minutes := 100,
    ticket_price_USD := 5, link := "", image := none, tags := [] }

/-- A store holding one tag and one movie, both owned by user 0. -/
def db0 : DB := { tags := [tagA], movies := [movieA], nextTagId := 2, nextMovieId := 2 }

/-- A movie owned by user 1, associated with tag 1. -/
def movieB : Movie :=
  { id := 1, user := 1, title := "Beta", time_minutes := 120,
    ticket_price_USD := 5, link := "http://x", image := none, tags := [1] }

/-- A store where user 1 owns movie 1, and tag 1 belongs to user 0. -/
def db1 : DB := { tags := [tagA], movies := [movieB], nextTagId := 2, nextMovieId := 2 }

/-! ### Claims -/

/-- C1: Movie and Tag list operations are ownership-scoped — a row whose
    owner is user A never appears in the queryset computed for a caller
    B ≠ A. -/
theorem C1_list_ownership_scoped (A B : Nat) (hAB : A ≠ B) (db : DB) :
    (∀ m : Movie, m.user = A → m ∉ movieQueryset B db) ∧
    (∀ t : Tag, t.user = A → t ∉ tagQueryset B db) := by
  constructor
  · intro m hm hmem
    exact hAB ((hm.symm.trans (mem_movieQueryset.mp hmem).2))
  · intro t ht hmem
    exact hAB ((ht.symm.trans (mem_tagQueryset.mp hmem).2))

/-- Witness for C1 at a concrete store: user 0's movie and tag are
    absent from user 1's querysets. -/
theorem C1_list_ownership_scoped_witness :
    movieA ∉ movieQueryset 1 db0 ∧ tagA ∉ tagQueryset 1 db0 :=
  ⟨(C1_list_ownership_scoped 0 1 (by decide) db0).1 movieA rfl,
   (C1_list_ownership_scoped 0 1 (by decide) db0).2 tagA rfl⟩

/-- C2 counterexample: the Tag controller does not support the full
    generic pattern — `TagViewSet` is built from only the list and
    create mixins, so retrieve, update (full and partial) and delete do
    not exist for Tags. -/
theorem C2_counterexample :
    tagSupports Action.retrieve = false ∧
    tagSupports Action.update = false ∧
    tagSupports Action.partialUpdate = false ∧
    tagSupports Action.destroy = false := by
  exact ⟨rfl, rfl, rfl, rfl⟩

/-- C2 (amended): the Movie controller supports the full generic
    pattern, the Tag controller supports exactly list and create, and
    every one of these operations requires a valid bearer token — a
    request whose token resolves to no user is answered 401 with the
    data store untouched. -/
theorem C2_actions_and_auth :
    (∀ a, movieSupports a = true) ∧
    tagSupports Action.list = true ∧
    tagSupports Action.create = true ∧
    (∀ a, tagSupports a = true → a = Action.list ∨ a = Action.create) ∧
    (∀ req db, handleMovie none req db = (HttpStatus.s401, db)) ∧
    (∀ req db, handleTag none req db = (HttpStatus.s401, db)) := by
  refine ⟨fun a => ?_, rfl, rfl, fun a h => ?_, fun req db => rfl, fun req db => rfl⟩
  · cases a <;> rfl
  · cases a <;> simp_all [tagSupports]

/-- C3: the Tag list returns only the caller's tags, sorted by name
    descending, and Tag create attaches the caller as owner of the new
    row and inserts it. -/
theorem C3_tag_list_sorted_create_owner (caller : Nat) (db : DB) (name : String) :
    (∀ t ∈ tagQueryset caller db, t.user = caller) ∧
    (tagQueryset caller db).Sorted (fun a b => b.name ≤ a.name) ∧
    (performCreateTag caller name db).1.user = caller ∧
    (performCreateTag caller name db).1.name = name ∧
    (performCreateTag caller name db).1 ∈ (performCreateTag caller name db).2.tags := by
  refine ⟨fun t ht => (mem_tagQueryset.mp ht).2, tagQueryset_sorted caller db, rfl, rfl, ?_⟩
  simp [performCreateTag]

/-- C4: serializer selection by operation — retrieve uses the detail
    form (tags expanded to id+name objects), upload-image uses the
    image form (only id and image), every other operation uses the list
    form (tags as bare ids). -/
theorem C4_serializer_selection :
    get_serializer_class Action.retrieve = SerializerClass.movieDetail ∧
    get_serializer_class Action.uploadImage = SerializerClass.movieImage ∧
    get_serializer_class Action.list = SerializerClass.movie ∧
    get_serializer_class Action.create = SerializerClass.movie ∧
    get_serializer_class Action.update = SerializerClass.movie ∧
    get_serializer_class Action.partialUpdate = SerializerClass.movie ∧
    get_serializer_class Action.destroy = SerializerClass.movie ∧
    (∀ db m, serializeWith (get_serializer_class Action.retrieve) db m =
      MovieRepr.detail (serializeMovieDetail db m)) ∧
    (∀ db m, (serializeMovieDetail db m).tags =
      m.tags.filterMap (fun i => (db.tags.find? (fun t => t.id = i)).map
        (fun t => { id := t.id, name := t.name }))) ∧
    (∀ db m, serializeWith (get_serializer_class Action.uploadImage) db m =
      MovieRepr.image { id := m.id, image := m.image }) ∧
    (∀ m, (serializeMovie m).tags = m.tags) :=
  ⟨rfl, rfl, rfl, rfl, rfl, rfl, rfl, fun _ _ => rfl, fun _ _ => rfl,
   fun _ _ => rfl, fun _ => rfl⟩

lemma runValidation_spec {db : DB} {p : MoviePayload} {v : ValidatedMovie}
    (h : runValidation db p = some v) :
    p.title = some v.title ∧ p.time_minutes = some v.time_minutes ∧
    p.ticket_price_USD = some v.ticket_price_USD ∧ v.link = p.link ∧
    v.tags = p.tags.getD [] ∧ 0 < v.time_minutes ∧ 0 < v.ticket_price_USD ∧
    validTagIds db v.tags = true := by
  obtain ⟨pt, ptm, ppr, plink, ptags⟩ := p
  unfold runValidation at h
  cases pt with
  | none => simp at h
  | some title =>
    cases ptm with
    | none => simp at h
    | some tm =>
      cases ppr with
      | none => simp at h
      | some pr =>
        dsimp only at h
        split at h
        · rename_i hcond
          injection h with h'
          subst h'
          exact ⟨rfl, rfl, rfl, rfl, rfl, hcond.1, hcond.2.1, hcond.2.2⟩
        · simp at h

/-- C5: creating a Movie from a valid payload and immediately retrieving
    it by the returned id yields the submitted scalar fields; an omitted
    tags field produces an empty tag set. -/
theorem C5_create_then_retrieve (caller : Nat) (db : DB) (p : MoviePayload)
    (v : ValidatedMovie) (hwf : db.wf = true)
    (hv : runValidation db p = some v) :
    ∃ r db' m,
      createMovie caller p db = (CreateResult.created r, db') ∧
      getObject caller r.id db' = some m ∧
      p.title = some m.title ∧
      p.time_minutes = some m.time_minutes ∧
      p.ticket_price_USD = some m.ticket_price_USD ∧
      m.link = p.link.getD "" ∧
      (p.tags = none → m.tags = []) := by
  obtain ⟨hpt, hptm, hpp, hlink, htags, _, _, _⟩ := runValidation_spec hv
  refine ⟨serializeMovie (newMovieRow caller v db),
    { db with movies := db.movies ++ [newMovieRow caller v db],
              nextMovieId := db.nextMovieId + 1 },
    newMovieRow caller v db, ?_, ?_, ?_, ?_, ?_, ?_, ?_⟩
  · simp [createMovie, hv]
  · have hfresh : ∀ x ∈ db.movies, x.id ≠ (newMovieRow caller v db).id := by
      intro x hx
      have := (wf_spec hwf).1 x hx
      simp only [newMovieRow]
      omega
    rw [getObject_eq_find]
    exact find_append_fresh caller db.movies (newMovieRow caller v db) hfresh rfl
  · exact hpt
  · exact hptm
  · exact hpp
  · show v.link.getD "" = p.link.getD ""
    rw [hlink]
  · intro hnone
    show v.tags = []
    rw [htags, hnone]
    rfl

/-- A creation payload that omits link and tags. -/
def p0 : MoviePayload :=
  { title := some "Test movie", time_minutes := some 30,
    ticket_price_USD := some 10, link := none, tags := none }

/-- Witness for C5: creating from `p0` in `db0` as user 1 and
    re-retrieving returns the submitted fields, with an empty tag
    set. -/
theorem C5_create_then_retrieve_witness :
    ∃ r db' m,
      createMovie 1 p0 db0 = (CreateResult.created r, db') ∧
      getObject 1 r.id db' = some m ∧
      p0.title = some m.title ∧
      p0.time_minutes = some m.time_minutes ∧
      p0.ticket_price_USD = some m.ticket_price_USD ∧
      m.link = p0.link.getD "" ∧
      (p0.tags = none → m.tags = []) :=
  C5_create_then_retrieve 1 db0 p0
    { title := "Test movie", time_minutes := 30, ticket_price_USD := 10,
      link := none, tags := [] }
    (by decide) (by decide)

/-- C6: updates replace the tag association wholesale — a PATCH carrying
    a tags list leaves exactly that list associated, and a PUT whose
    body has no tags key leaves the Movie with zero tags. -/
theorem C6_update_replaces_tags_wholesale (caller pk : Nat) (db : DB) (m : Movie)
    (hnd : (db.movies.map (fun x => x.id)).Nodup)
    (hget : getObject caller pk db = some m) :
    (∀ p ts, p.tags = some ts → runValidationPartial db p = some p →
      ∃ r db' m', patchMovie caller pk p db = (UpdateResult.ok r, db') ∧
        getObject caller pk db' = some m' ∧ m'.tags = ts) ∧
    (∀ p v, p.tags = none → runValidation db p = some v →
      ∃ r db' m', putMovie caller pk p db = (UpdateResult.ok r, db') ∧
        getObject caller pk db' = some m' ∧ m'.tags = []) := by
  obtain ⟨hmem, huser, hid⟩ := getObject_user_id_mem hget
  constructor
  · intro p ts hts hval
    refine ⟨serializeMovie (applyPartialUpdate p m),
      updateMovieInDB (applyPartialUpdate p m) db, applyPartialUpdate p m,
      ?_, ?_, ?_⟩
    · simp [patchMovie, hget, hval]
    · exact getObject_updateMovieInDB (applyPartialUpdate p m) hnd hget rfl huser
    · show p.tags.getD m.tags = ts
      rw [hts]
      rfl
  · intro p v hnone hval
    obtain ⟨_, _, _, _, htags, _, _, _⟩ := runValidation_spec hval
    refine ⟨serializeMovie (applyFullUpdate v m),
      updateMovieInDB (applyFullUpdate v m) db, applyFullUpdate v m,
      ?_, ?_, ?_⟩
    · simp [putMovie, hget, hval]
    · exact getObject_updateMovieInDB (applyFullUpdate v m) hnd hget rfl huser
    · show v.tags = []
      rw [htags, hnone]
      rfl

/-- A PATCH body carrying only a tags list. -/
def pPatch : MoviePayload :=
  { title := none, time_minutes := none, ticket_price_USD := none,
    link := none, tags := some [1] }

/-- A PUT body with every required scalar field but no tags key. -/
def pPut : MoviePayload :=
  { title := some "La Estrategia del Caracol", time_minutes := some 180,
    ticket_price_USD := some 8, link := none, tags := none }

/-- Witness for C6: on `db1` (movie 1 owned by user 1, carrying tag 1),
    a PATCH with tags `[1]` yields exactly `[1]`, and a PUT without a
    tags key clears all tags. -/
theorem C6_update_replaces_tags_wholesale_witness :
    (∃ r db' m', patchMovie 1 1 pPatch db1 = (UpdateResult.ok r, db') ∧
      getObject 1 1 db' = some m' ∧ m'.tags = [1]) ∧
    (∃ r db' m', putMovie 1 1 pPut db1 = (UpdateResult.ok r, db') ∧
      getObject 1 1 db' = some m' ∧ m'.tags = []) :=
  ⟨(C6_update_replaces_tags_wholesale 1 1 db1 movieB (by decide) (by decide)).1
      pPatch [1] rfl (by decide),
   (C6_update_replaces_tags_wholesale 1 1 db1 movieB (by decide) (by decide)).2
      pPut
      { title := "La Estrategia del Caracol", time_minutes := 180,
        ticket_price_USD := 8, link := none, tags := [] }
      rfl (by decide)⟩

/-- C7: a PATCH whose body carries only a tags field changes only the
    tag association; title, runtime, price, link, image and owner are
    unchanged afterward. -/
theorem C7_patch_tags_only_is_frame (caller pk : Nat) (db : DB) (m : Movie)
    (ts : List Nat)
    (hnd : (db.movies.map (fun x => x.id)).Nodup)
    (hget : getObject caller pk db = some m)
    (hts : validTagIds db ts = true) :
    ∃ r db' m',
      patchMovie caller pk
        { title := none, time_minutes := none, ticket_price_USD := none,
          link := none, tags := some ts } db = (UpdateResult.ok r, db') ∧
      getObject caller pk db' = some m' ∧
      m'.tags = ts ∧ m'.title = m.title ∧ m'.time_minutes = m.time_minutes ∧
      m'.ticket_price_USD = m.ticket_price_USD ∧ m'.link = m.link ∧
      m'.image = m.image ∧ m'.user = m.user ∧ m'.id = m.id := by
  obtain ⟨hmem, huser, hid⟩ := getObject_user_id_mem hget
  have hval : runValidationPartial db
      { title := none, time_minutes := none, ticket_price_USD := none,
        link := none, tags := some ts } =
      some { title := none, time_minutes := none, ticket_price_USD := none,
             link := none, tags := some ts } := by
    simp [runValidationPartial, hts]
  refine ⟨serializeMovie { m with tags := ts },
    updateMovieInDB { m with tags := ts } db, { m with tags := ts },
    ?_, ?_, rfl, rfl, rfl, rfl, rfl, rfl, rfl, rfl⟩
  · simp [patchMovie, hget, hval, applyPartialUpdate]
  · exact getObject_updateMovieInDB { m with tags := ts } hnd hget rfl huser

/-- Witness for C7 at `db1`: patching movie 1 with only tags `[1]`
    leaves every other field of `movieB` as it was. -/
theorem C7_patch_tags_only_is_frame_witness :
    ∃ r db' m',
      patchMovie 1 1
        { title := none, time_minutes := none, ticket_price_USD := none,
          link := none, tags := some [1] } db1 = (UpdateResult.ok r, db') ∧
      getObject 1 1 db' = some m' ∧
      m'.tags = [1] ∧ m'.title = movieB.title ∧
      m'.time_minutes = movieB.time_minutes ∧
      m'.ticket_price_USD = movieB.ticket_price_USD ∧ m'.link = movieB.link ∧
      m'.image = movieB.image ∧ m'.user = movieB.user ∧ m'.id = movieB.id :=
  C7_patch_tags_only_is_frame 1 1 db1 movieB [1] (by decide) (by decide) (by decide)

/-- C8: image upload on an owned Movie — a valid image is stored (the
    row's image becomes the new reference) and answered with a success
    carrying the Movie's id and that reference; invalid, missing or
    corrupt image data is answered 400 with the store untouched. -/
theorem C8_upload_image_success_and_validation (caller pk : Nat) (db : DB)
    (m : Movie)
    (hnd : (db.movies.map (fun x => x.id)).Nodup)
    (hget : getObject caller pk db = some m) :
    (∀ ref,
      upload_image caller pk (UploadData.image ref) db =
        (UploadResult.ok { id := m.id, image := some ref },
         updateMovieInDB { m with image := some ref } db) ∧
      getObject caller pk (updateMovieInDB { m with image := some ref } db) =
        some { m with image := some ref }) ∧
    (∀ d, validateImage d = none →
      upload_image caller pk d db = (UploadResult.badRequest, db)) := by
  obtain ⟨hmem, huser, hid⟩ := getObject_user_id_mem hget
  constructor
  · intro ref
    constructor
    · simp [upload_image, hget, validateImage, serializeMovieImage]
    · exact getObject_updateMovieInDB { m with image := some ref } hnd hget rfl huser
  · intro d hd
    simp [upload_image, hget, hd]

/-- Witness for C8 at `db1`: a valid upload stores and echoes the
    reference; a non-image payload is rejected with no change. -/
theorem C8_upload_image_success_and_validation_witness :
    (upload_image 1 1 (UploadData.image "uploads/movie/x.jpg") db1 =
      (UploadResult.ok { id := movieB.id, image := some "uploads/movie/x.jpg" },
       updateMovieInDB { movieB with image := some "uploads/movie/x.jpg" } db1) ∧
     getObject 1 1 (updateMovieInDB
        { movieB with image := some "uploads/movie/x.jpg" } db1) =
       some { movieB with image := some "uploads/movie/x.jpg" }) ∧
    upload_image 1 1 (UploadData.notImage "notimage") db1 =
      (UploadResult.badRequest, db1) :=
  ⟨(C8_upload_image_success_and_validation 1 1 db1 movieB (by decide)
      (by decide)).1 "uploads/movie/x.jpg",
   (C8_upload_image_success_and_validation 1 1 db1 movieB (by decide)
      (by decide)).2 (UploadData.notImage "notimage") rfl⟩

/-- C9: tags-field validation checks ids against the whole Tag table,
    never the caller — a tag owned by another user passes validation,
    and a Movie can be created carrying it. -/
theorem C9_foreign_tag_ids_accepted (db : DB) (caller : Nat) (t : Tag)
    (ht : t ∈ db.tags) (_hforeign : t.user ≠ caller)
    (title : String) (tm : Nat) (pr : ℚ) (htm : 0 < tm) (hpr : 0 < pr) :
    validTagIds db [t.id] = true ∧
    runValidationPartial db
      { title := none, time_minutes := none, ticket_price_USD := none,
        link := none, tags := some [t.id] } =
      some { title := none, time_minutes := none, ticket_price_USD := none,
             link := none, tags := some [t.id] } ∧
    ∃ r db',
      createMovie caller
        { title := some title, time_minutes := some tm,
          ticket_price_USD := some pr, link := none, tags := some [t.id] } db =
        (CreateResult.created r, db') ∧ r.tags = [t.id] := by
  have hv : validTagIds db [t.id] = true := by
    simp only [validTagIds, List.all_cons, List.all_nil, Bool.and_true,
      List.any_eq_true, decide_eq_true_eq]
    exact ⟨t, ht, rfl⟩
  have hval : runValidation db
      { title := some title, time_minutes := some tm,
        ticket_price_USD := some pr, link := none, tags := some [t.id] } =
      some { title := title, time_minutes := tm, ticket_price_USD := pr,
             link := none, tags := [t.id] } := by
    simp [runValidation, htm, hpr, hv]
  refine ⟨hv, by simp [runValidationPartial, hv], ?_⟩
  unfold createMovie
  rw [hval]
  exact ⟨_, _, rfl, rfl⟩

/-- Witness for C9: user 1 creates a Movie carrying tag 1, which is
    owned by user 0, without a validation error. -/
theorem C9_foreign_tag_ids_accepted_witness :
    validTagIds db1 [tagA.id] = true ∧
    runValidationPartial db1
      { title := none, time_minutes := none, ticket_price_USD := none,
        link := none, tags := some [tagA.id] } =
      some { title := none, time_minutes := none, ticket_price_USD := none,
             link := none, tags := some [tagA.id] } ∧
    ∃ r db',
      createMovie 1
        { title := some "Borrowed", time_minutes := some 30,
          ticket_price_USD := some 10, link := none,
          tags := some [tagA.id] } db1 =
        (CreateResult.created r, db') ∧ r.tags = [tagA.id] :=
  C9_foreign_tag_ids_accepted db1 1 tagA (by decide) (by decide)
    "Borrowed" 30 10 (by decide) (by decide)

/-- C10: an upload-image POST aimed at a Movie that does not exist for
    the caller — absent, or owned by someone else — resolves through
    the caller-filtered queryset to a 404 with no write, whatever the
    payload. -/
theorem C10_upload_image_unowned_404 (caller pk : Nat) (db : DB)
    (d : UploadData)
    (h : ∀ m ∈ db.movies, m.id = pk → m.user ≠ caller) :
    upload_image caller pk d db = (UploadResult.notFound, db) ∧
    handleMovie (some caller) (MovieRequest.uploadImage pk d) db =
      (HttpStatus.s404, db) := by
  have hnone : getObject caller pk db = none := by
    rw [getObject_eq_find, List.find?_eq_none]
    intro x hx
    simp only [ownedWithPk, decide_eq_true_eq, not_and]
    intro hu hp
    exact h x hx hp hu
  have h1 : upload_image caller pk d db = (UploadResult.notFound, db) := by
    simp [upload_image, hnone]
  exact ⟨h1, by simp [handleMovie, h1]⟩

/-- Witness for C10: user 1 posting a valid image to movie 1 of `db0`
    (owned by user 0) gets 404 and the store is untouched. -/
theorem C10_upload_image_unowned_404_witness :
    upload_image 1 1 (UploadData.image "x.jpg") db0 =
      (UploadResult.notFound, db0) ∧
    handleMovie (some 1) (MovieRequest.uploadImage 1 (UploadData.image "x.jpg")) db0 =
      (HttpStatus.s404, db0) :=
  C10_upload_image_unowned_404 1 1 db0 (UploadData.image "x.jpg") (by decide)

end MoviesApp
